import Mathlib

/-
Shallow embedding of the heartbeat-installation ESP32 firmware.

Namespace `Heartbeat` embeds the sensor-processing pipeline of
`firmware/heartbeat_phase1/src/main.cpp` (moving-average smoothing,
min/max baseline tracking with periodic decay, disconnection detection,
and adaptive-threshold beat detection with a refractory period).

Namespace `Amor` embeds the power-state management and signal-quality
logic of `firmware/amor/src/main.cpp` (stddev of the ADC ring buffer,
stddev-history stability, and the IDLE power-state check loop).

Modelling conventions:
- C `int` fields become `Int`; counters that are only incremented or
  reset to zero become `Nat`; `millis()` timestamps become `Nat`
  (the firmware relies on a monotonic clock and all claims are stated
  under that assumption, so unsigned 32-bit wraparound is not modelled).
- C integer division truncates toward zero, so it is embedded as
  `Int.tdiv` (equal to `/` on the non-negative operands that actually
  occur at those call sites).
- The two float expressions `(int)((x) * 0.1f)` and
  `(int)((x) * 0.6f)` are embedded as `(x).tdiv 10` and
  `(x * 6).tdiv 10`: for the 12-bit ADC magnitudes involved
  (|x| ≤ 4095) the single-precision product never rounds across an
  integer boundary, so the truncated results coincide.
- `sqrt` on doubles truncated by a `(uint16_t)` cast is embedded as
  `Nat.sqrt` of the truncated quotient: for integer `k`,
  `k ≤ sqrt (a / n)` iff `k * k ≤ a / n` iff `k * k ≤ ⌊a / n⌋`, so the
  floor of the real square root of the real quotient equals
  `Nat.sqrt (a / n)` with natural division.
- Networking, serial output and LED side effects are not modelled; the
  OSC emission of `detectBeat` is reflected in its `BeatOutcome` result.
-/

namespace Heartbeat

/-- Number of samples in the moving-average window (`MOVING_AVG_SAMPLES`). -/
def MOVING_AVG_SAMPLES : Nat := 5

/-- Decay fires every this many samples (`BASELINE_DECAY_INTERVAL`). -/
def BASELINE_DECAY_INTERVAL : Nat := 150

/-- Minimum ADC range for a valid signal (`MIN_SIGNAL_RANGE`). -/
def MIN_SIGNAL_RANGE : Int := 50

/-- Refractory period in milliseconds (`REFRACTORY_PERIOD_MS`). -/
def REFRACTORY_PERIOD_MS : Nat := 300

/-- ADC variance below this counts as a flat sample (`FLAT_SIGNAL_THRESHOLD`). -/
def FLAT_SIGNAL_THRESHOLD : Nat := 5

/-- The `SensorState` struct of the phase-1/2 firmware. -/
structure SensorState where
  rawSamples : List Int
  sampleIndex : Nat
  smoothedValue : Int
  minValue : Int
  maxValue : Int
  samplesSinceDecay : Nat
  aboveThreshold : Bool
  lastBeatTime : Nat
  lastIBI : Nat
  firstBeatDetected : Bool
  isConnected : Bool
  lastRawValue : Int
  flatSampleCount : Nat
  deriving Repr, DecidableEq

/-- State produced by `initializeSensor` on first boot: the moving-average
buffer is pre-filled with the first ADC reading, the baseline is seeded to
that reading, the sensor is marked connected and `lastBeatTime` is set to
the current `millis()`; the remaining fields keep their global-initializer
values. -/
def initializeSensor (firstReading : Int) (now : Nat) : SensorState :=
  { rawSamples := List.replicate MOVING_AVG_SAMPLES firstReading
    sampleIndex := 0
    smoothedValue := firstReading
    minValue := firstReading
    maxValue := firstReading
    samplesSinceDecay := 0
    aboveThreshold := false
    lastBeatTime := now
    lastIBI := 0
    firstBeatDetected := false
    isConnected := true
    lastRawValue := firstReading
    flatSampleCount := 0 }

/-- `updateMovingAverage`: write the raw value at the cursor, advance the
cursor modulo the window size, recompute the truncating integer mean. -/
def updateMovingAverage (rawValue : Int) (s : SensorState) : SensorState :=
  let buf := s.rawSamples.set s.sampleIndex rawValue
  { s with
    rawSamples := buf
    sampleIndex := (s.sampleIndex + 1) % MOVING_AVG_SAMPLES
    smoothedValue := buf.sum.tdiv (MOVING_AVG_SAMPLES : Int) }

/-- The instant-expansion step (R9) of `updateBaseline`: pull `minValue`
down and `maxValue` up to the current smoothed value. -/
def expandEnvelope (s : SensorState) : SensorState :=
  let s1 := if s.smoothedValue < s.minValue then { s with minValue := s.smoothedValue } else s
  if s1.smoothedValue > s1.maxValue then { s1 with maxValue := s1.smoothedValue } else s1

/-- The decay step (R10 body) of `updateBaseline`: move each bound 10%
of the way toward the smoothed value (float multiply by `0.1f` truncated
to `int`, embedded as truncating division by 10) and reset the counter. -/
def applyDecay (s : SensorState) : SensorState :=
  { s with
    minValue := s.minValue + (s.smoothedValue - s.minValue).tdiv 10
    maxValue := s.maxValue - (s.maxValue - s.smoothedValue).tdiv 10
    samplesSinceDecay := 0 }

/-- `updateBaseline`: instant expansion, then increment the decay counter
and, when it reaches `BASELINE_DECAY_INTERVAL`, apply the decay. -/
def updateBaseline (s : SensorState) : SensorState :=
  let e := expandEnvelope s
  let e2 := { e with samplesSinceDecay := e.samplesSinceDecay + 1 }
  if e2.samplesSinceDecay ≥ BASELINE_DECAY_INTERVAL then applyDecay e2 else e2

/-- `checkDisconnection`: update the flat-sample counter from the raw-value
variance, flag disconnection on a sustained flat signal or a too-small
envelope range, reconnect (with baseline reseed and beat-detector reset)
when the signal is live again, and record the raw value. -/
def checkDisconnection (rawValue : Int) (now : Nat) (s : SensorState) : SensorState :=
  let s1 :=
    if (rawValue - s.lastRawValue).natAbs < FLAT_SIGNAL_THRESHOLD then
      { s with flatSampleCount := s.flatSampleCount + 1 }
    else
      { s with flatSampleCount := 0 }
  let range := s1.maxValue - s1.minValue
  let s2 :=
    if s1.flatSampleCount ≥ 50 ∨ range < MIN_SIGNAL_RANGE then
      { s1 with isConnected := false }
    else s1
  let s3 :=
    if s2.isConnected = false ∧ s2.flatSampleCount = 0 ∧ range ≥ MIN_SIGNAL_RANGE then
      { s2 with
        isConnected := true
        minValue := s2.smoothedValue
        maxValue := s2.smoothedValue
        firstBeatDetected := false
        lastBeatTime := now }
    else s2
  { s3 with lastRawValue := rawValue }

/-- Result of one `detectBeat` call: no beat, an accepted first beat
(no OSC message is sent), or an accepted subsequent beat carrying the
inter-beat interval sent over OSC. -/
inductive BeatOutcome where
  | none
  | firstBeat
  | beat (ibi : Nat)
  deriving Repr, DecidableEq

/-- The adaptive threshold (R17): `minValue` plus 60% of the envelope
range (float multiply by `0.6f` truncated to `int`, embedded as
multiplication by 6 and truncating division by 10). -/
def threshold (s : SensorState) : Int :=
  s.minValue + ((s.maxValue - s.minValue) * 6).tdiv 10

/-- `detectBeat`: rising-edge detection against the adaptive threshold,
with the refractory gate checked before any state mutation, first-beat
suppression, and falling-edge re-arming. -/
def detectBeat (now : Nat) (s : SensorState) : SensorState × BeatOutcome :=
  if s.isConnected = false then (s, BeatOutcome.none)
  else
    let th := threshold s
    if s.smoothedValue ≥ th ∧ s.aboveThreshold = false then
      if now - s.lastBeatTime < REFRACTORY_PERIOD_MS then
        (s, BeatOutcome.none)
      else if s.firstBeatDetected = false then
        ({ s with aboveThreshold := true, firstBeatDetected := true, lastBeatTime := now },
         BeatOutcome.firstBeat)
      else
        let ibi := now - s.lastBeatTime
        ({ s with aboveThreshold := true, lastBeatTime := now, lastIBI := ibi },
         BeatOutcome.beat ibi)
    else if s.smoothedValue < th ∧ s.aboveThreshold = true then
      ({ s with aboveThreshold := false }, BeatOutcome.none)
    else (s, BeatOutcome.none)

theorem expandEnvelope_bounds (s : SensorState) :
    (expandEnvelope s).minValue ≤ (expandEnvelope s).smoothedValue ∧
    (expandEnvelope s).smoothedValue ≤ (expandEnvelope s).maxValue := by
  unfold expandEnvelope
  dsimp only
  split <;> split <;> simp_all

theorem expandEnvelope_smoothed (s : SensorState) :
    (expandEnvelope s).smoothedValue = s.smoothedValue := by
  unfold expandEnvelope
  dsimp only
  split <;> split <;> simp_all

end Heartbeat

/-- Claim C1: after one call to `updateBaseline` (instant expansion, then
decay when the counter fires), `minValue ≤ smoothedValue ≤ maxValue` holds
for every input state, and the decay never moves `minValue` above nor
`maxValue` below the smoothed value: the resulting envelope stays inside
the envelope produced by the instant-expansion step alone. -/
theorem heartbeat_updateBaseline_envelope (s : Heartbeat.SensorState) :
    (Heartbeat.updateBaseline s).minValue ≤ (Heartbeat.updateBaseline s).smoothedValue ∧
    (Heartbeat.updateBaseline s).smoothedValue ≤ (Heartbeat.updateBaseline s).maxValue ∧
    (Heartbeat.expandEnvelope s).minValue ≤ (Heartbeat.updateBaseline s).minValue ∧
    (Heartbeat.updateBaseline s).maxValue ≤ (Heartbeat.expandEnvelope s).maxValue := by
  obtain ⟨h1, h2⟩ := Heartbeat.expandEnvelope_bounds s
  unfold Heartbeat.updateBaseline
  set e := Heartbeat.expandEnvelope s with he
  dsimp only
  split
  · unfold Heartbeat.applyDecay
    dsimp only
    rw [Int.tdiv_eq_ediv (by omega) (by decide), Int.tdiv_eq_ediv (by omega) (by decide)]
    refine ⟨by omega, by omega, by omega, by omega⟩
  · exact ⟨h1, h2, le_refl _, le_refl _⟩

open Heartbeat

/-- Claim C2: under a monotonic clock, a rising edge inside the refractory
window is discarded before any state mutation (the state, in particular
`aboveThreshold`, is left untouched and no event is emitted); no call with
`now - lastBeatTime < REFRACTORY_PERIOD_MS` ever emits a beat event, so two
rising edges closer than the refractory period yield exactly one event; and
the same rising edge is accepted once the window has elapsed. -/
theorem heartbeat_detectBeat_refractory :
    (∀ (s : SensorState) (now : Nat),
        s.isConnected = true →
        s.aboveThreshold = false →
        threshold s ≤ s.smoothedValue →
        now - s.lastBeatTime < REFRACTORY_PERIOD_MS →
        detectBeat now s = (s, BeatOutcome.none)) ∧
    (∀ (s : SensorState) (now : Nat),
        now - s.lastBeatTime < REFRACTORY_PERIOD_MS →
        (detectBeat now s).2 = BeatOutcome.none) ∧
    (∀ (s : SensorState) (now : Nat),
        s.isConnected = true →
        s.aboveThreshold = false →
        threshold s ≤ s.smoothedValue →
        REFRACTORY_PERIOD_MS ≤ now - s.lastBeatTime →
        (detectBeat now s).2 ≠ BeatOutcome.none ∧
        (detectBeat now s).1.lastBeatTime = now ∧
        (detectBeat now s).1.aboveThreshold = true) := by
  refine ⟨?_, ?_, ?_⟩
  · intro s now h1 h2 h3 h4
    simp [detectBeat, h1, h2, h3, h4]
  · intro s now h
    unfold detectBeat
    dsimp only
    repeat' split
    all_goals rfl
  · intro s now h1 h2 h3 h4
    have href : ¬(now - s.lastBeatTime < REFRACTORY_PERIOD_MS) := by omega
    cases hfb : s.firstBeatDetected <;>
      simp [detectBeat, h1, h2, h3, hfb, href]

/-- Witness for C2 at a concrete state and time inside the window. -/
theorem heartbeat_detectBeat_refractory_witness :
    detectBeat 1100
        { rawSamples := [100, 100, 100, 100, 100]
          sampleIndex := 0
          smoothedValue := 100
          minValue := 0
          maxValue := 100
          samplesSinceDecay := 0
          aboveThreshold := false
          lastBeatTime := 1000
          lastIBI := 0
          firstBeatDetected := true
          isConnected := true
          lastRawValue := 100
          flatSampleCount := 0 } =
      ({ rawSamples := [100, 100, 100, 100, 100]
         sampleIndex := 0
         smoothedValue := 100
         minValue := 0
         maxValue := 100
         samplesSinceDecay := 0
         aboveThreshold := false
         lastBeatTime := 1000
         lastIBI := 0
         firstBeatDetected := true
         isConnected := true
         lastRawValue := 100
         flatSampleCount := 0 }, BeatOutcome.none) :=
  heartbeat_detectBeat_refractory.1 _ 1100 rfl rfl (by decide) (by decide)

/-- Claim C5: in a connected state with `firstBeatDetected = false`, the
first rising edge that passes the refractory gate emits no OSC beat event
(the outcome is `firstBeat`, which carries no message), but arms
`firstBeatDetected` and sets `lastBeatTime` to the current time. -/
theorem heartbeat_detectBeat_firstBeat (s : SensorState) (now : Nat)
    (h1 : s.isConnected = true)
    (h2 : s.firstBeatDetected = false)
    (h3 : s.aboveThreshold = false)
    (h4 : threshold s ≤ s.smoothedValue)
    (h5 : REFRACTORY_PERIOD_MS ≤ now - s.lastBeatTime) :
    detectBeat now s =
      ({ s with aboveThreshold := true, firstBeatDetected := true, lastBeatTime := now },
       BeatOutcome.firstBeat) ∧
    ∀ ibi, (detectBeat now s).2 ≠ BeatOutcome.beat ibi := by
  have h : detectBeat now s =
      ({ s with aboveThreshold := true, firstBeatDetected := true, lastBeatTime := now },
       BeatOutcome.firstBeat) := by
    simp [detectBeat, h1, h2, h3, h4]
    omega
  exact ⟨h, fun ibi => by rw [h]; simp⟩

/-- Witness for C5 at a concrete state and time past the window. -/
theorem heartbeat_detectBeat_firstBeat_witness :
    detectBeat 1400
        { rawSamples := [100, 100, 100, 100, 100]
          sampleIndex := 0
          smoothedValue := 100
          minValue := 0
          maxValue := 100
          samplesSinceDecay := 0
          aboveThreshold := false
          lastBeatTime := 1000
          lastIBI := 0
          firstBeatDetected := false
          isConnected := true
          lastRawValue := 100
          flatSampleCount := 0 } =
      ({ rawSamples := [100, 100, 100, 100, 100]
         sampleIndex := 0
         smoothedValue := 100
         minValue := 0
         maxValue := 100
         samplesSinceDecay := 0
         aboveThreshold := true
         lastBeatTime := 1400
         lastIBI := 0
         firstBeatDetected := true
         isConnected := true
         lastRawValue := 100
         flatSampleCount := 0 }, BeatOutcome.firstBeat) ∧
    ∀ ibi, (detectBeat 1400
        { rawSamples := [100, 100, 100, 100, 100]
          sampleIndex := 0
          smoothedValue := 100
          minValue := 0
          maxValue := 100
          samplesSinceDecay := 0
          aboveThreshold := false
          lastBeatTime := 1000
          lastIBI := 0
          firstBeatDetected := false
          isConnected := true
          lastRawValue := 100
          flatSampleCount := 0 }).2 ≠ BeatOutcome.beat ibi :=
  heartbeat_detectBeat_firstBeat _ 1400 rfl rfl rfl (by decide) (by decide)

/-- Claim C9: whenever `detectBeat` emits a subsequent-beat event, the
inter-beat interval is at least `REFRACTORY_PERIOD_MS`, hence positive,
so the BPM computation `60000 / ibi` never divides by zero. -/
theorem heartbeat_detectBeat_ibi_lower_bound (s : SensorState) (now : Nat)
    (s1 : SensorState) (ibi : Nat)
    (_hmono : s.lastBeatTime ≤ now)
    (h : detectBeat now s = (s1, BeatOutcome.beat ibi)) :
    REFRACTORY_PERIOD_MS ≤ ibi ∧ 0 < ibi := by
  unfold detectBeat at h
  dsimp only at h
  split at h
  · simp at h
  · split at h
    · split at h
      · simp at h
      · split at h
        · simp at h
        · simp only [Prod.mk.injEq, BeatOutcome.beat.injEq] at h
          unfold REFRACTORY_PERIOD_MS at *
          omega
    · split at h <;> simp at h

/-- Witness for C9 at a concrete accepted beat. -/
theorem heartbeat_detectBeat_ibi_lower_bound_witness :
    REFRACTORY_PERIOD_MS ≤ 400 ∧ 0 < 400 :=
  heartbeat_detectBeat_ibi_lower_bound
    { rawSamples := [100, 100, 100, 100, 100]
      sampleIndex := 0
      smoothedValue := 100
      minValue := 0
      maxValue := 100
      samplesSinceDecay := 0
      aboveThreshold := false
      lastBeatTime := 1000
      lastIBI := 0
      firstBeatDetected := true
      isConnected := true
      lastRawValue := 100
      flatSampleCount := 0 } 1400
    { rawSamples := [100, 100, 100, 100, 100]
      sampleIndex := 0
      smoothedValue := 100
      minValue := 0
      maxValue := 100
      samplesSinceDecay := 0
      aboveThreshold := true
      lastBeatTime := 1400
      lastIBI := 400
      firstBeatDetected := true
      isConnected := true
      lastRawValue := 100
      flatSampleCount := 0 } 400 (by decide) (by decide)

/-- Claim C4: from a disconnected state, one call to `checkDisconnection`
reconnects exactly when the in-call flat-sample counter is zero and the
envelope range is at least `MIN_SIGNAL_RANGE`; on reconnection it reseeds
the baseline to the smoothed value, clears `firstBeatDetected` and sets
`lastBeatTime` to the current time; `lastRawValue` is updated
unconditionally. -/
theorem heartbeat_checkDisconnection_reconnect (s : SensorState) (rawValue : Int) (now : Nat)
    (hdisc : s.isConnected = false) :
    ((checkDisconnection rawValue now s).isConnected = true ↔
      ((checkDisconnection rawValue now s).flatSampleCount = 0 ∧
       MIN_SIGNAL_RANGE ≤ s.maxValue - s.minValue)) ∧
    ((checkDisconnection rawValue now s).isConnected = true →
      (checkDisconnection rawValue now s).minValue = s.smoothedValue ∧
      (checkDisconnection rawValue now s).maxValue = s.smoothedValue ∧
      (checkDisconnection rawValue now s).firstBeatDetected = false ∧
      (checkDisconnection rawValue now s).lastBeatTime = now) ∧
    (checkDisconnection rawValue now s).lastRawValue = rawValue := by
  unfold checkDisconnection
  dsimp only
  repeat' split
  all_goals simp_all

/-- State used by the witness of C4: disconnected, wide envelope, live
raw value. -/
def reconnectWitnessState : SensorState :=
  { rawSamples := [50, 50, 50, 50, 50]
    sampleIndex := 0
    smoothedValue := 50
    minValue := 0
    maxValue := 100
    samplesSinceDecay := 0
    aboveThreshold := false
    lastBeatTime := 0
    lastIBI := 0
    firstBeatDetected := true
    isConnected := false
    lastRawValue := 0
    flatSampleCount := 7 }

/-- Witness for C4: a disconnected state with a live raw value and a wide
envelope reconnects and is reseeded. -/
theorem heartbeat_checkDisconnection_reconnect_witness :
    ((checkDisconnection 10 500 reconnectWitnessState).isConnected = true ↔
      ((checkDisconnection 10 500 reconnectWitnessState).flatSampleCount = 0 ∧
       MIN_SIGNAL_RANGE ≤ reconnectWitnessState.maxValue - reconnectWitnessState.minValue)) ∧
    ((checkDisconnection 10 500 reconnectWitnessState).isConnected = true →
      (checkDisconnection 10 500 reconnectWitnessState).minValue =
        reconnectWitnessState.smoothedValue ∧
      (checkDisconnection 10 500 reconnectWitnessState).maxValue =
        reconnectWitnessState.smoothedValue ∧
      (checkDisconnection 10 500 reconnectWitnessState).firstBeatDetected = false ∧
      (checkDisconnection 10 500 reconnectWitnessState).lastBeatTime = 500) ∧
    (checkDisconnection 10 500 reconnectWitnessState).lastRawValue = 10 :=
  heartbeat_checkDisconnection_reconnect reconnectWitnessState 10 500 rfl

/-- Claim C10: whenever the envelope range is below `MIN_SIGNAL_RANGE`, one
call to `checkDisconnection` leaves the sensor flagged disconnected; both
sensor initialization and the reconnection reseed produce a zero-width
envelope, so the sensor is flagged disconnected again on the next tick
unless the envelope has grown to at least `MIN_SIGNAL_RANGE` by then. -/
theorem heartbeat_range_disconnect :
    (∀ (s : SensorState) (rawValue : Int) (now : Nat),
        s.maxValue - s.minValue < MIN_SIGNAL_RANGE →
        (checkDisconnection rawValue now s).isConnected = false) ∧
    (∀ (firstReading : Int) (now : Nat),
        (initializeSensor firstReading now).minValue =
          (initializeSensor firstReading now).maxValue) ∧
    (∀ (s : SensorState) (rawValue : Int) (now : Nat),
        s.isConnected = false →
        (checkDisconnection rawValue now s).isConnected = true →
        (checkDisconnection rawValue now s).minValue =
          (checkDisconnection rawValue now s).maxValue) := by
  refine ⟨?_, ?_, ?_⟩
  · intro s rawValue now hrange
    unfold checkDisconnection
    dsimp only
    repeat' split
    all_goals simp_all
    all_goals omega
  · intro firstReading now
    rfl
  · intro s rawValue now hdisc
    unfold checkDisconnection
    dsimp only
    repeat' split
    all_goals simp_all

/-- Witness for C10: a fresh zero-width state is flagged disconnected. -/
theorem heartbeat_range_disconnect_witness :
    (checkDisconnection 50 40
        (initializeSensor 50 0)).isConnected = false :=
  heartbeat_range_disconnect.1 (initializeSensor 50 0) 50 40 (by decide)

/-- Concrete state refuting the strict-narrowing reading of C6: both gaps
between the bounds and the smoothed value are below 10, so the truncated
decay amounts are zero. -/
def decayCounterexample : SensorState :=
  { rawSamples := [102, 102, 102, 102, 102]
    sampleIndex := 0
    smoothedValue := 102
    minValue := 100
    maxValue := 105
    samplesSinceDecay := 149
    aboveThreshold := false
    lastBeatTime := 0
    lastIBI := 0
    firstBeatDetected := false
    isConnected := true
    lastRawValue := 102
    flatSampleCount := 0 }

/-- Counterexample to C6 as stated: in `decayCounterexample` the envelope
has positive width, the smoothed value lies strictly inside it, the decay
fires on this `updateBaseline` call (the counter resets), and yet the
envelope width does not strictly decrease. -/
theorem heartbeat_decay_not_strict :
    decayCounterexample.minValue < decayCounterexample.maxValue ∧
    decayCounterexample.minValue ≤ decayCounterexample.smoothedValue ∧
    decayCounterexample.smoothedValue ≤ decayCounterexample.maxValue ∧
    (updateBaseline decayCounterexample).samplesSinceDecay = 0 ∧
    ¬((updateBaseline decayCounterexample).maxValue -
        (updateBaseline decayCounterexample).minValue <
      decayCounterexample.maxValue - decayCounterexample.minValue) := by decide

/-- Claim C6 (amended): with the smoothed value inside the envelope, each
firing of the periodic decay never increases the width, keeps it
non-negative, and moves both bounds toward the smoothed value without
crossing it; the narrowing is strict exactly when at least one gap between
a bound and the smoothed value is 10 or more — integer truncation makes
the decay a no-op on a gap below 10. -/
theorem heartbeat_decay_narrowing (s : SensorState)
    (h1 : s.minValue ≤ s.smoothedValue) (h2 : s.smoothedValue ≤ s.maxValue) :
    (applyDecay s).maxValue - (applyDecay s).minValue ≤ s.maxValue - s.minValue ∧
    0 ≤ (applyDecay s).maxValue - (applyDecay s).minValue ∧
    s.minValue ≤ (applyDecay s).minValue ∧
    (applyDecay s).minValue ≤ s.smoothedValue ∧
    s.smoothedValue ≤ (applyDecay s).maxValue ∧
    (applyDecay s).maxValue ≤ s.maxValue ∧
    ((10 ≤ s.smoothedValue - s.minValue ∨ 10 ≤ s.maxValue - s.smoothedValue) →
      (applyDecay s).maxValue - (applyDecay s).minValue < s.maxValue - s.minValue) ∧
    ((s.smoothedValue - s.minValue < 10 ∧ s.maxValue - s.smoothedValue < 10) →
      (applyDecay s).maxValue - (applyDecay s).minValue = s.maxValue - s.minValue) := by
  unfold applyDecay
  dsimp only
  rw [Int.tdiv_eq_ediv (by omega) (by decide), Int.tdiv_eq_ediv (by omega) (by decide)]
  refine ⟨by omega, by omega, by omega, by omega, by omega, by omega, by omega, by omega⟩

/-- State used by the witness of the amended C6: a wide envelope where the
decay strictly narrows. -/
def decayWitnessState : SensorState :=
  { rawSamples := [50, 50, 50, 50, 50]
    sampleIndex := 0
    smoothedValue := 50
    minValue := 0
    maxValue := 100
    samplesSinceDecay := 0
    aboveThreshold := false
    lastBeatTime := 0
    lastIBI := 0
    firstBeatDetected := false
    isConnected := true
    lastRawValue := 50
    flatSampleCount := 0 }

/-- Witness for the amended C6 at a wide envelope where the decay strictly
narrows. -/
theorem heartbeat_decay_narrowing_witness :
    (applyDecay decayWitnessState).maxValue - (applyDecay decayWitnessState).minValue ≤
      decayWitnessState.maxValue - decayWitnessState.minValue ∧
    0 ≤ (applyDecay decayWitnessState).maxValue - (applyDecay decayWitnessState).minValue ∧
    decayWitnessState.minValue ≤ (applyDecay decayWitnessState).minValue ∧
    (applyDecay decayWitnessState).minValue ≤ decayWitnessState.smoothedValue ∧
    decayWitnessState.smoothedValue ≤ (applyDecay decayWitnessState).maxValue ∧
    (applyDecay decayWitnessState).maxValue ≤ decayWitnessState.maxValue ∧
    ((10 ≤ decayWitnessState.smoothedValue - decayWitnessState.minValue ∨
      10 ≤ decayWitnessState.maxValue - decayWitnessState.smoothedValue) →
      (applyDecay decayWitnessState).maxValue - (applyDecay decayWitnessState).minValue <
        decayWitnessState.maxValue - decayWitnessState.minValue) ∧
    ((decayWitnessState.smoothedValue - decayWitnessState.minValue < 10 ∧
      decayWitnessState.maxValue - decayWitnessState.smoothedValue < 10) →
      (applyDecay decayWitnessState).maxValue - (applyDecay decayWitnessState).minValue =
        decayWitnessState.maxValue - decayWitnessState.minValue) :=
  heartbeat_decay_narrowing decayWitnessState (by decide) (by decide)

theorem replicate_set_self (n i : Nat) (a : Int) :
    (List.replicate n a).set i a = List.replicate n a := by
  induction n generalizing i with
  | zero => simp
  | succ m ih =>
    cases i with
    | zero => simp [List.replicate]
    | succ j => simp [List.replicate, List.set, ih]

theorem replicate_sum_tdiv (a : Int) :
    (List.replicate MOVING_AVG_SAMPLES a).sum.tdiv (MOVING_AVG_SAMPLES : Int) = a := by
  have h : (List.replicate MOVING_AVG_SAMPLES a).sum = (5 : Int) * a := by
    simp [MOVING_AVG_SAMPLES, List.replicate]
    ring
  rw [h]
  exact Int.mul_tdiv_cancel_left a (by decide)

/-- Claim C7: prefill seeds the whole buffer with the first reading and
makes the smoothed value equal to it; every update writes the raw value at
the cursor, advances the cursor modulo the window size, and recomputes the
smoothed value as the truncating integer mean of the buffer; feeding the
buffer-constant value back in keeps the buffer and smoothed value fixed. -/
theorem heartbeat_movingAverage :
    (∀ (firstReading : Int) (now : Nat),
        (initializeSensor firstReading now).smoothedValue = firstReading ∧
        (initializeSensor firstReading now).rawSamples =
          List.replicate MOVING_AVG_SAMPLES firstReading) ∧
    (∀ (s : SensorState) (rawValue : Int),
        (updateMovingAverage rawValue s).rawSamples =
          s.rawSamples.set s.sampleIndex rawValue ∧
        (updateMovingAverage rawValue s).sampleIndex =
          (s.sampleIndex + 1) % MOVING_AVG_SAMPLES ∧
        (updateMovingAverage rawValue s).smoothedValue =
          (s.rawSamples.set s.sampleIndex rawValue).sum.tdiv (MOVING_AVG_SAMPLES : Int)) ∧
    (∀ (s : SensorState) (a : Int),
        s.rawSamples = List.replicate MOVING_AVG_SAMPLES a →
        (updateMovingAverage a s).smoothedValue = a ∧
        (updateMovingAverage a s).rawSamples = List.replicate MOVING_AVG_SAMPLES a) := by
  refine ⟨fun firstReading now => ⟨rfl, rfl⟩, fun s rawValue => ⟨rfl, rfl, rfl⟩, ?_⟩
  intro s a h
  unfold updateMovingAverage
  dsimp only
  rw [h, replicate_set_self]
  exact ⟨replicate_sum_tdiv a, rfl⟩

/-- Witness for C7: updating a buffer holding five copies of 7 with 7
leaves the smoothed value and the buffer unchanged. -/
theorem heartbeat_movingAverage_witness :
    (updateMovingAverage 7
        { rawSamples := [7, 7, 7, 7, 7]
          sampleIndex := 2
          smoothedValue := 7
          minValue := 7
          maxValue := 7
          samplesSinceDecay := 0
          aboveThreshold := false
          lastBeatTime := 0
          lastIBI := 0
          firstBeatDetected := false
          isConnected := true
          lastRawValue := 7
          flatSampleCount := 0 }).smoothedValue = 7 ∧
    (updateMovingAverage 7
        { rawSamples := [7, 7, 7, 7, 7]
          sampleIndex := 2
          smoothedValue := 7
          minValue := 7
          maxValue := 7
          samplesSinceDecay := 0
          aboveThreshold := false
          lastBeatTime := 0
          lastIBI := 0
          firstBeatDetected := false
          isConnected := true
          lastRawValue := 7
          flatSampleCount := 0 }).rawSamples = List.replicate MOVING_AVG_SAMPLES 7 :=
  heartbeat_movingAverage.2.2
    { rawSamples := [7, 7, 7, 7, 7]
      sampleIndex := 2
      smoothedValue := 7
      minValue := 7
      maxValue := 7
      samplesSinceDecay := 0
      aboveThreshold := false
      lastBeatTime := 0
      lastIBI := 0
      firstBeatDetected := false
      isConnected := true
      lastRawValue := 7
      flatSampleCount := 0 } 7 (by decide)

namespace Amor

/-- Trigger threshold on stddev for waking into ACTIVE
(`SIGNAL_QUALITY_THRESHOLD_TRIGGER`). -/
def SIGNAL_QUALITY_THRESHOLD_TRIGGER : Nat := 50

/-- Stability threshold on the stddev-of-stddevs
(`SIGNAL_STABILITY_THRESHOLD`). -/
def SIGNAL_STABILITY_THRESHOLD : Nat := 40

/-- Sentinel returned when too little history exists
(`SIGNAL_STABILITY_UNKNOWN`). -/
def SIGNAL_STABILITY_UNKNOWN : Nat := 9999

/-- Size of the stddev history ring (`STDDEV_HISTORY_SIZE`). -/
def STDDEV_HISTORY_SIZE : Nat := 5

/-- Consecutive good checks required to enter ACTIVE
(`ACTIVE_TRIGGER_COUNT`). -/
def ACTIVE_TRIGGER_COUNT : Nat := 1

/-- The `PowerState` enum. -/
inductive PowerState where
  | POWER_STATE_IDLE
  | POWER_STATE_ACTIVE
  deriving Repr, DecidableEq

/-- The fields of the global `state` struct involved in power-state
management and signal-quality tracking. WiFi and OSC bookkeeping fields
are external I/O and are not modelled. -/
structure AmorState where
  adcRingBuffer : List Nat
  adcRingIndex : Nat
  sampleCount : Nat
  powerState : PowerState
  lastStddev : Nat
  consecutiveGoodChecks : Nat
  stddevHistory : List Nat
  stddevHistoryIndex : Nat
  stddevHistoryCount : Nat
  transitionsToActive : Nat
  deriving Repr, DecidableEq

/-- `calculateStddev`: 0 with fewer than 10 samples, else the truncated
standard deviation of the first `sampleCount` ring-buffer entries
(truncating integer mean, sum of squared signed differences, truncated
square root of the truncated quotient). -/
def calculateStddev (s : AmorState) : Nat :=
  if s.sampleCount < 10 then 0
  else
    let samples := s.adcRingBuffer.take s.sampleCount
    let mean := samples.sum / s.sampleCount
    let sumSqDiff :=
      (samples.map (fun x =>
        ((x : Int) - (mean : Int)).natAbs * ((x : Int) - (mean : Int)).natAbs)).sum
    Nat.sqrt (sumSqDiff / s.sampleCount)

/-- `updateStddevHistory`: write the stddev at the history cursor, advance
it modulo the history size, and saturate the entry count. -/
def updateStddevHistory (stddev : Nat) (s : AmorState) : AmorState :=
  { s with
    stddevHistory := s.stddevHistory.set s.stddevHistoryIndex stddev
    stddevHistoryIndex := (s.stddevHistoryIndex + 1) % STDDEV_HISTORY_SIZE
    stddevHistoryCount :=
      if s.stddevHistoryCount < STDDEV_HISTORY_SIZE then s.stddevHistoryCount + 1
      else s.stddevHistoryCount }

/-- `calculateSignalStability`: the sentinel with fewer than 3 history
entries, else the truncated standard deviation of the first
`stddevHistoryCount` history entries. -/
def calculateSignalStability (s : AmorState) : Nat :=
  if s.stddevHistoryCount < 3 then SIGNAL_STABILITY_UNKNOWN
  else
    let entries := s.stddevHistory.take s.stddevHistoryCount
    let mean := entries.sum / s.stddevHistoryCount
    let sumSqDiff :=
      (entries.map (fun x =>
        ((x : Int) - (mean : Int)).natAbs * ((x : Int) - (mean : Int)).natAbs)).sum
    Nat.sqrt (sumSqDiff / s.stddevHistoryCount)

/-- One ADC sample pushed into the 50-slot ring buffer during an IDLE
check, with the saturating sample count. -/
def pushSample (sample : Nat) (s : AmorState) : AmorState :=
  { s with
    adcRingBuffer := s.adcRingBuffer.set s.adcRingIndex sample
    adcRingIndex := (s.adcRingIndex + 1) % 50
    sampleCount := if s.sampleCount < 50 then s.sampleCount + 1 else s.sampleCount }

/-- The sample-collection burst at the top of `idleStateLoop`. -/
def pushSamples (burst : List Nat) (s : AmorState) : AmorState :=
  burst.foldl (fun st x => pushSample x st) s

/-- `enterActiveState` on the modelled fields: switch to ACTIVE and count
the transition (WiFi reconnection is external I/O). -/
def enterActiveState (s : AmorState) : AmorState :=
  { s with
    powerState := PowerState.POWER_STATE_ACTIVE
    transitionsToActive := s.transitionsToActive + 1 }

/-- One iteration of `idleStateLoop` on a burst of ADC samples: push the
burst, compute the stddev, record it in the history, compute stability,
and either count a good check (entering ACTIVE at
`ACTIVE_TRIGGER_COUNT`) or reset the counter. -/
def idleStateLoop (burst : List Nat) (s : AmorState) : AmorState :=
  let s1 := pushSamples burst s
  let stddev := calculateStddev s1
  let s2 := updateStddevHistory stddev { s1 with lastStddev := stddev }
  let stability := calculateSignalStability s2
  if SIGNAL_QUALITY_THRESHOLD_TRIGGER < stddev ∧ stability < SIGNAL_STABILITY_THRESHOLD then
    let s3 := { s2 with consecutiveGoodChecks := s2.consecutiveGoodChecks + 1 }
    if s3.consecutiveGoodChecks ≥ ACTIVE_TRIGGER_COUNT then enterActiveState s3 else s3
  else
    { s2 with consecutiveGoodChecks := 0 }

/-- The stddev computed by an IDLE check on a given burst. -/
def idleCheckStddev (burst : List Nat) (s : AmorState) : Nat :=
  calculateStddev (pushSamples burst s)

/-- The stability computed by an IDLE check on a given burst (the current
stddev is pushed into the history first, as in the firmware). -/
def idleCheckStability (burst : List Nat) (s : AmorState) : Nat :=
  let s1 := pushSamples burst s
  let stddev := calculateStddev s1
  calculateSignalStability (updateStddevHistory stddev { s1 with lastStddev := stddev })

/-- The `loop` dispatch restricted to the modelled IDLE checks: an IDLE
state runs one `idleStateLoop` iteration, any other state is left alone. -/
def powerStep (burst : List Nat) (s : AmorState) : AmorState :=
  if s.powerState = PowerState.POWER_STATE_IDLE then idleStateLoop burst s else s

/-- A run of the dispatch loop over a list of IDLE-check bursts. -/
def powerRun (s : AmorState) : List (List Nat) → AmorState
  | [] => s
  | burst :: rest => powerRun (powerStep burst s) rest

theorem pushSamples_fields (burst : List Nat) (s : AmorState) :
    (pushSamples burst s).powerState = s.powerState ∧
    (pushSamples burst s).transitionsToActive = s.transitionsToActive ∧
    (pushSamples burst s).consecutiveGoodChecks = s.consecutiveGoodChecks ∧
    (pushSamples burst s).stddevHistoryCount = s.stddevHistoryCount := by
  induction burst generalizing s with
  | nil => exact ⟨rfl, rfl, rfl, rfl⟩
  | cons x xs ih => exact ih (pushSample x s)

theorem idleStateLoop_good (burst : List Nat) (s : AmorState)
    (h1 : SIGNAL_QUALITY_THRESHOLD_TRIGGER < idleCheckStddev burst s)
    (h2 : idleCheckStability burst s < SIGNAL_STABILITY_THRESHOLD) :
    (idleStateLoop burst s).powerState = PowerState.POWER_STATE_ACTIVE ∧
    (idleStateLoop burst s).transitionsToActive = s.transitionsToActive + 1 := by
  obtain ⟨hp, ht, hc, hh⟩ := pushSamples_fields burst s
  unfold idleStateLoop
  unfold idleCheckStddev at h1
  unfold idleCheckStability at h2
  dsimp only at h1 h2 ⊢
  rw [if_pos ⟨h1, h2⟩]
  rw [if_pos (by unfold ACTIVE_TRIGGER_COUNT; omega)]
  unfold enterActiveState updateStddevHistory
  dsimp only
  exact ⟨rfl, by rw [ht]⟩

theorem idleStateLoop_notGood (burst : List Nat) (s : AmorState)
    (h : idleCheckStddev burst s ≤ SIGNAL_QUALITY_THRESHOLD_TRIGGER ∨
         SIGNAL_STABILITY_THRESHOLD ≤ idleCheckStability burst s) :
    (idleStateLoop burst s).powerState = s.powerState ∧
    (idleStateLoop burst s).transitionsToActive = s.transitionsToActive ∧
    (idleStateLoop burst s).consecutiveGoodChecks = 0 := by
  obtain ⟨hp, ht, hc, hh⟩ := pushSamples_fields burst s
  unfold idleStateLoop
  unfold idleCheckStddev at h
  unfold idleCheckStability at h
  dsimp only at h ⊢
  rw [if_neg (by omega)]
  unfold updateStddevHistory
  dsimp only
  exact ⟨hp, ht, rfl⟩

theorem calculateSignalStability_sentinel (s : AmorState) (h : s.stddevHistoryCount < 3) :
    calculateSignalStability s = SIGNAL_STABILITY_UNKNOWN := by
  unfold calculateSignalStability
  rw [if_pos h]

end Amor

open Amor

/-- Claim C3: a run of IDLE checks in which every check computes a stddev
not above `SIGNAL_QUALITY_THRESHOLD_TRIGGER` never leaves IDLE and never
counts a transition; one check whose stddev exceeds the trigger threshold
and whose stability is below `SIGNAL_STABILITY_THRESHOLD` (the code value
of `ACTIVE_TRIGGER_COUNT` is 1, so one good check is the required
consecutive sequence) triggers exactly one IDLE-to-ACTIVE transition; and
a check failing either of the two conditions triggers none, so both are
required. -/
theorem amor_idle_gating :
    (∀ (s : AmorState) (bursts : List (List Nat)),
        s.powerState = PowerState.POWER_STATE_IDLE →
        (∀ pre burst post, bursts = pre ++ burst :: post →
            idleCheckStddev burst (powerRun s pre) ≤ SIGNAL_QUALITY_THRESHOLD_TRIGGER) →
        (powerRun s bursts).powerState = PowerState.POWER_STATE_IDLE ∧
        (powerRun s bursts).transitionsToActive = s.transitionsToActive) ∧
    (∀ (s : AmorState) (burst : List Nat),
        s.powerState = PowerState.POWER_STATE_IDLE →
        SIGNAL_QUALITY_THRESHOLD_TRIGGER < idleCheckStddev burst s →
        idleCheckStability burst s < SIGNAL_STABILITY_THRESHOLD →
        (idleStateLoop burst s).powerState = PowerState.POWER_STATE_ACTIVE ∧
        (idleStateLoop burst s).transitionsToActive = s.transitionsToActive + 1) ∧
    (∀ (s : AmorState) (burst : List Nat),
        (idleCheckStddev burst s ≤ SIGNAL_QUALITY_THRESHOLD_TRIGGER ∨
         SIGNAL_STABILITY_THRESHOLD ≤ idleCheckStability burst s) →
        (idleStateLoop burst s).powerState = s.powerState ∧
        (idleStateLoop burst s).transitionsToActive = s.transitionsToActive ∧
        (idleStateLoop burst s).consecutiveGoodChecks = 0) := by
  refine ⟨?_, ?_, ?_⟩
  · intro s bursts
    induction bursts generalizing s with
    | nil => intro hidle _; exact ⟨hidle, rfl⟩
    | cons b bs ih =>
      intro hidle hlow
      have hps : powerStep b s = idleStateLoop b s := by
        unfold powerStep
        rw [if_pos hidle]
      have hb : idleCheckStddev b s ≤ SIGNAL_QUALITY_THRESHOLD_TRIGGER := hlow [] b bs rfl
      obtain ⟨hp, ht, _⟩ := Amor.idleStateLoop_notGood b s (Or.inl hb)
      have hidle2 : (idleStateLoop b s).powerState = PowerState.POWER_STATE_IDLE := by
        rw [hp, hidle]
      have hlow2 : ∀ pre burst post, bs = pre ++ burst :: post →
          idleCheckStddev burst (powerRun (idleStateLoop b s) pre) ≤
            SIGNAL_QUALITY_THRESHOLD_TRIGGER := by
        intro pre burst post hpre
        have h3 := hlow (b :: pre) burst post (by rw [hpre]; rfl)
        have h4 : powerRun s (b :: pre) = powerRun (idleStateLoop b s) pre := by
          show powerRun (powerStep b s) pre = powerRun (idleStateLoop b s) pre
          rw [hps]
        rwa [h4] at h3
      obtain ⟨hq, hr⟩ := ih (idleStateLoop b s) hidle2 hlow2
      have h5 : powerRun s (b :: bs) = powerRun (idleStateLoop b s) bs := by
        show powerRun (powerStep b s) bs = powerRun (idleStateLoop b s) bs
        rw [hps]
      rw [h5]
      exact ⟨hq, by rw [hr, ht]⟩
  · intro s burst _ h1 h2
    exact Amor.idleStateLoop_good burst s h1 h2
  · intro s burst h
    exact Amor.idleStateLoop_notGood burst s h

/-- State used by the witness of C3: 30 buffered samples, two history
entries of 56, counters at zero, in IDLE. -/
def idleWitnessState : AmorState :=
  { adcRingBuffer := List.replicate 25 0 ++ List.replicate 5 112 ++ List.replicate 20 0
    adcRingIndex := 30
    sampleCount := 30
    powerState := PowerState.POWER_STATE_IDLE
    lastStddev := 0
    consecutiveGoodChecks := 0
    stddevHistory := [56, 56, 0, 0, 0]
    stddevHistoryIndex := 2
    stddevHistoryCount := 2
    transitionsToActive := 0 }

/-- Burst used by the witness of C3: twenty samples of 112, giving a
buffer of 25 zeros and 25 copies of 112 (stddev exactly 56). -/
def idleWitnessBurst : List Nat := List.replicate 20 112

/-- Witness for C3: the good check on `idleWitnessState` enters ACTIVE and
counts exactly one transition. -/
theorem amor_idle_gating_witness :
    (idleStateLoop idleWitnessBurst idleWitnessState).powerState =
      PowerState.POWER_STATE_ACTIVE ∧
    (idleStateLoop idleWitnessBurst idleWitnessState).transitionsToActive =
      idleWitnessState.transitionsToActive + 1 := by
  have hsd : calculateStddev (pushSamples idleWitnessBurst idleWitnessState) =
      Nat.sqrt (56 * 56) := rfl
  rw [Nat.sqrt_eq] at hsd
  have h1 : SIGNAL_QUALITY_THRESHOLD_TRIGGER <
      idleCheckStddev idleWitnessBurst idleWitnessState := by
    unfold idleCheckStddev
    rw [hsd]
    decide
  have h2 : idleCheckStability idleWitnessBurst idleWitnessState <
      SIGNAL_STABILITY_THRESHOLD := by
    unfold idleCheckStability
    dsimp only
    rw [hsd]
    decide
  exact amor_idle_gating.2.1 idleWitnessState idleWitnessBurst rfl h1 h2

/-- Claim C8: with fewer than 3 history entries the stability computation
returns the sentinel `SIGNAL_STABILITY_UNKNOWN` (9999), which is not
below `SIGNAL_STABILITY_THRESHOLD`, so an IDLE check performed before 3
measurements have accumulated (history count at most 1 before the check,
hence below 3 after the in-check push) leaves the machine in IDLE. -/
theorem amor_stability_sentinel :
    (∀ s : AmorState, s.stddevHistoryCount < 3 →
        calculateSignalStability s = SIGNAL_STABILITY_UNKNOWN ∧
        ¬(calculateSignalStability s < SIGNAL_STABILITY_THRESHOLD)) ∧
    (∀ (s : AmorState) (burst : List Nat),
        s.powerState = PowerState.POWER_STATE_IDLE →
        s.stddevHistoryCount < 2 →
        (idleStateLoop burst s).powerState = PowerState.POWER_STATE_IDLE ∧
        (idleStateLoop burst s).transitionsToActive = s.transitionsToActive) := by
  refine ⟨?_, ?_⟩
  · intro s h
    rw [Amor.calculateSignalStability_sentinel s h]
    exact ⟨rfl, by decide⟩
  · intro s burst hidle h
    have hh := (Amor.pushSamples_fields burst s).2.2.2
    have hstab : idleCheckStability burst s = SIGNAL_STABILITY_UNKNOWN := by
      unfold idleCheckStability
      dsimp only
      apply Amor.calculateSignalStability_sentinel
      unfold Amor.updateStddevHistory Amor.STDDEV_HISTORY_SIZE
      dsimp only
      rw [if_pos (by omega)]
      omega
    obtain ⟨hp, ht, _⟩ :=
      Amor.idleStateLoop_notGood burst s (Or.inr (by rw [hstab]; decide))
    exact ⟨by rw [hp, hidle], ht⟩

/-- State used by the witness of C8: empty stddev history. -/
def sentinelWitnessState : AmorState :=
  { adcRingBuffer := List.replicate 50 0
    adcRingIndex := 0
    sampleCount := 0
    powerState := PowerState.POWER_STATE_IDLE
    lastStddev := 0
    consecutiveGoodChecks := 0
    stddevHistory := [0, 0, 0, 0, 0]
    stddevHistoryIndex := 0
    stddevHistoryCount := 0
    transitionsToActive := 0 }

/-- Witness for C8: with an empty history the stability is the sentinel
and the gate is closed. -/
theorem amor_stability_sentinel_witness :
    calculateSignalStability sentinelWitnessState = SIGNAL_STABILITY_UNKNOWN ∧
    ¬(calculateSignalStability sentinelWitnessState < SIGNAL_STABILITY_THRESHOLD) :=
  amor_stability_sentinel.1 sentinelWitnessState (by decide)
